import Mathlib

/-!
Verification of the uORB client layer (`apps/system/uorb/uORB/uORB.c`).

The C functions interact with the OS only through `access`, `open`, `close`,
`ioctl`, `write` and `poll`.  We embed them shallowly: a `World` records the
outcome the OS would give to each of those calls, every embedded function is a
pure Lean function of the `World`, and the externally visible OS interactions
are collected in an event trace so that properties such as "the handle is
closed before returning" become statements about the trace.
-/

set_option autoImplicit false

namespace UorbSpec

/-- Modelled from the spec: sensor-root directory prefix of every topic path
(`ORB_SENSOR_PATH` from `uORB.h`, which is not under `src/`; the spec gives the
path shape `<sensor-root>/<name><instance>`). -/
def ORB_SENSOR_PATH : String := "/dev/uorb/"

/-- Modelled from the spec: the well-known control-channel path used to submit
registration requests (`ORB_USENSOR_PATH` from `uORB.h`, not under `src/`). -/
def ORB_USENSOR_PATH : String := "/dev/usensor"

/-- Modelled from the spec: the fixed path-length budget (`ORB_PATH_MAX` from
`uORB.h`, not under `src/`; upstream it is `NAME_MAX + 16`).  The concrete
value does not matter for any claim below, only that it is a fixed bound. -/
def ORB_PATH_MAX : Nat := 48

/-- Errno value `EEXIST` from `errno.h` (POSIX value 17). -/
def EEXIST : Int := 17

/-- Errno value `EINVAL` from `errno.h` (POSIX value 22). -/
def EINVAL : Int := 22

/-- Poll event mask `POLLIN` from `poll.h` (NuttX value 0x01). -/
def POLLIN : Nat := 1

/-- Topic metadata (`struct orb_metadata`): name and per-element payload size
(`o_name`, `o_size`). -/
structure orb_metadata where
  o_name : String
  o_size : Nat
  deriving DecidableEq, Repr

/-- Raw driver-reported state record (`struct sensor_state_s`), as listed in
the spec's external-interface section: all unsigned integers. -/
structure sensor_state_s where
  min_interval : Nat
  min_latency : Nat
  nbuffer : Nat
  nsubscribers : Nat
  nadvertisers : Nat
  generation : Nat
  deriving DecidableEq, Repr

/-- Modelled from the spec: the caller-visible state snapshot
(`struct orb_state` from `uORB.h`, not under `src/`).  The spec's `TopicState`
lists `{ max_frequency_hz, min_batch_interval, queue_size, nsubscribers,
nadvertisers, generation }`, so the struct is modelled with all six fields. -/
structure orb_state where
  max_frequency : Nat
  min_batch_interval : Nat
  queue_size : Nat
  nsubscribers : Nat
  nadvertisers : Nat
  generation : Nat
  deriving DecidableEq, Repr

/-- Externally visible OS interactions, recorded in order of occurrence. -/
inductive Ev where
  /-- Registration request `ioctl(fd, SNIOC_REGISTER, &reginfo)` on the
  control channel, with the request fields `path`, `esize`, `nbuffer` and the
  driver's return value. -/
  | register_ev (path : String) (esize : Nat) (nbuffer : Nat) (ret : Int)
  /-- State query `ioctl(fd, SNIOC_GET_STATE, &tmp)` with the driver's
  return value. -/
  | get_state_ev (fd : Nat) (ret : Int)
  /-- Metadata attachment `ioctl(fd, SNIOC_SET_USERPRIV, meta)`. -/
  | set_userpriv_ev (fd : Nat)
  /-- Buffer sizing `ioctl(fd, SNIOC_SET_BUFFER_NUMBER, n)`. -/
  | set_buffer_ev (fd : Nat) (n : Nat)
  /-- Payload write `write(fd, data, len)` with its return value. -/
  | write_ev (fd : Nat) (len : Nat) (ret : Int)
  /-- Handle release `close(fd)`. -/
  | close_ev (fd : Nat)
  deriving DecidableEq, Repr

/-- The environment: the outcome the OS/driver gives to each call the C code
can make.  `openRet` also covers `access` success implicitly via `access`. -/
structure World where
  /-- Whether `access(path, F_OK)` succeeds, i.e. the node exists. -/
  access : String → Bool
  /-- result of `open(path, ...)`: a file descriptor `≥ 0` or a negative error. -/
  openRet : String → Int
  /-- result of the `SNIOC_REGISTER` ioctl on the control channel. -/
  regRet : Int
  /-- result of the `SNIOC_GET_STATE` ioctl on a given fd. -/
  getStateRet : Nat → Int
  /-- the record filled in by a successful `SNIOC_GET_STATE` on a given fd. -/
  getStateVal : Nat → sensor_state_s
  /-- result of `write(fd, data, len)`. -/
  writeRet : Nat → Nat → Int
  /-- result of `poll(fds, 1, 0)` for the given fd. -/
  pollRet : Nat → Int
  /-- the `revents` mask reported by `poll` for the given fd. -/
  pollRevents : Nat → Nat

/-- Truncation semantics of `snprintf(buf, n, ...)`: at most `n - 1`
characters are stored (plus the NUL terminator), so the formatted string is
silently truncated to `n - 1` characters. -/
def snprintf_trunc (n : Nat) (s : String) : String :=
  ⟨s.data.take (n - 1)⟩

/-- The derived device path, as built by
`snprintf(path, ORB_PATH_MAX, ORB_SENSOR_PATH"%s%d", meta->o_name, instance)`
in both `orb_open` and `orb_exists`. -/
def orb_path (meta : orb_metadata) (inst : Nat) : String :=
  snprintf_trunc ORB_PATH_MAX (ORB_SENSOR_PATH ++ meta.o_name ++ toString inst)

/-- Embedding of `orb_exists` (uORB.c:282-305): open the derived path, query its state,
close the probe fd, and report `0` (exists) exactly when the query succeeded
and `nadvertisers > 0`; every failure is reported as `-1`. -/
def orb_exists (w : World) (meta : orb_metadata) (inst : Nat) : Int × List Ev :=
  let path := orb_path meta inst
  let fd := w.openRet path
  if fd < 0 then
    (-1, [])
  else
    let ret := w.getStateRet fd.toNat
    let t := [Ev.get_state_ev fd.toNat ret, Ev.close_ev fd.toNat]
    if ret < 0 then
      (-1, t)
    else
      (if (w.getStateVal fd.toNat).nadvertisers > 0 then 0 else -1, t)

/-- Holds when `orb_exists` reports existence (returns 0) at this instance. -/
def orb_exists_ok (w : World) (meta : orb_metadata) (inst : Nat) : Prop :=
  (orb_exists w meta inst).1 = 0

instance orb_exists_ok.dec (w : World) (meta : orb_metadata) (inst : Nat) :
    Decidable (orb_exists_ok w meta inst) :=
  inferInstanceAs (Decidable ((orb_exists w meta inst).1 = 0))

/-- Embedding of `orb_group_count` (uORB.c:307-317): `while (orb_exists(meta, instance) == 0)
++instance; return instance;`.  The loop terminates exactly when some instance
fails the probe, and then returns the least such instance, i.e. `Nat.find`. -/
def orb_group_count (w : World) (meta : orb_metadata)
    (h : ∃ n, ¬ orb_exists_ok w meta n) : Nat :=
  Nat.find h

/-- Result of `orb_open`: the returned fd (or negative error), the final value
of the local `first_open`, and the trace of OS interactions. -/
structure OpenResult where
  ret : Int
  first_open : Bool
  trace : List Ev
  deriving DecidableEq, Repr

/-- Tail of `orb_open` (uORB.c:96-114), after the registration block: open the
derived path, and on success attach metadata when `first_open` and request the
buffer size when `queue_size` is non-zero (both ioctl results ignored). -/
def orb_open_node (w : World) (path : String) (first_open : Bool)
    (queue_size : Nat) (t : List Ev) : OpenResult :=
  let fd := w.openRet path
  if fd < 0 then
    { ret := fd, first_open := first_open, trace := t }
  else
    let t := t ++ (if first_open then [Ev.set_userpriv_ev fd.toNat] else [])
    let t := t ++ (if queue_size ≠ 0 then [Ev.set_buffer_ev fd.toNat queue_size] else [])
    { ret := fd, first_open := first_open, trace := t }

/-- Embedding of `orb_open` (uORB.c:56-115): build the path, probe existence with `access`;
if absent, open the control channel, submit the registration request, close the
control fd, swallow `-EEXIST`, abort on any other negative result, and set
`first_open`; finally open the node (see `orb_open_node`).  The `advertiser`
flag only selects the open mode (`O_WRONLY` vs `O_RDONLY`), which the `World`
does not distinguish, so it is not a parameter here. -/
def orb_open (w : World) (meta : orb_metadata) (inst : Nat)
    (queue_size : Nat) : OpenResult :=
  let path := orb_path meta inst
  if w.access path then
    orb_open_node w path false queue_size []
  else
    let cfd := w.openRet ORB_USENSOR_PATH
    if cfd < 0 then
      { ret := cfd, first_open := false, trace := [] }
    else
      let ret := w.regRet
      let t := [Ev.register_ev path meta.o_size queue_size ret, Ev.close_ev cfd.toNat]
      if ret < 0 ∧ ret ≠ -EEXIST then
        { ret := ret, first_open := false, trace := t }
      else
        orb_open_node w path true queue_size t

/-- Embedding of `orb_publish_multi` (uORB.c:163-166):
`return write(fd, data, len);`. -/
def orb_publish_multi (w : World) (fd : Nat) (len : Nat) : Int :=
  w.writeRet fd len

/-- The instance `orb_advertise_multi_queue` opens:
`inst = instance ? *instance : orb_group_count(meta);` (uORB.c:130).  The
hypothesis makes the `orb_group_count` loop terminate in the null case. -/
def chosen_instance (w : World) (meta : orb_metadata) :
    (instPtr : Option Nat) → (instPtr = none → ∃ n, ¬ orb_exists_ok w meta n) → Nat
  | some v, _ => v
  | none, h => orb_group_count w meta (h rfl)

/-- Result of `orb_advertise_multi_queue`: the returned fd (or `-1`), the final
value of the caller's `*instance` cell (`none` models a null pointer), the
instance number actually opened (the local `inst`), and the trace. -/
structure AdvResult where
  ret : Int
  instFinal : Option Nat
  instUsed : Nat
  trace : List Ev
  deriving DecidableEq, Repr

/-- Embedding of `orb_advertise_multi_queue` (uORB.c:121-156): pick the instance, open as
advertiser (returning `-1` on failure), and if `data` is non-null perform the
initial publish of `o_size` bytes; a result different from `o_size` closes the
fresh fd and returns `-1`.  `hasData` models `data != NULL`. -/
def orb_advertise_multi_queue (w : World) (meta : orb_metadata) (hasData : Bool)
    (instPtr : Option Nat) (queue_size : Nat)
    (h : instPtr = none → ∃ n, ¬ orb_exists_ok w meta n) : AdvResult :=
  let inst := chosen_instance w meta instPtr h
  let r := orb_open w meta inst queue_size
  if r.ret < 0 then
    { ret := -1, instFinal := instPtr, instUsed := inst, trace := r.trace }
  else if hasData then
    let pret := orb_publish_multi w r.ret.toNat meta.o_size
    let t := r.trace ++ [Ev.write_ev r.ret.toNat meta.o_size pret]
    if pret ≠ (meta.o_size : Int) then
      { ret := -1, instFinal := instPtr, instUsed := inst,
        trace := t ++ [Ev.close_ev r.ret.toNat] }
    else
      { ret := r.ret, instFinal := instPtr, instUsed := inst, trace := t }
  else
    { ret := r.ret, instFinal := instPtr, instUsed := inst, trace := r.trace }

/-- Embedding of `orb_get_state` (uORB.c:184-208): `none` models a null `state` pointer and
fails immediately with `-EINVAL` and an empty trace (no query issued); `some s0`
models a pointer to a cell currently holding `s0`.  On a failed query the cell
is returned unchanged; on success the projected fields are written.  The source
assigns `max_frequency`, `min_batch_interval`, `queue_size`, `nsubscribers` and
`generation` but never assigns `nadvertisers`, so that field keeps its prior
value `s0.nadvertisers`. -/
def orb_get_state (w : World) (fd : Nat) (state0 : Option orb_state) :
    Int × Option orb_state × List Ev :=
  match state0 with
  | none => (-EINVAL, none, [])
  | some s0 =>
    let ret := w.getStateRet fd
    let t := [Ev.get_state_ev fd ret]
    if ret < 0 then
      (ret, some s0, t)
    else
      let tmp := w.getStateVal fd
      (ret,
       some { max_frequency := if tmp.min_interval ≠ 0 then 1000000 / tmp.min_interval else 0
              min_batch_interval := tmp.min_latency
              queue_size := tmp.nbuffer
              nsubscribers := tmp.nsubscribers
              nadvertisers := s0.nadvertisers
              generation := tmp.generation },
       t)

/-- Embedding of `orb_check` (uORB.c:210-226): zero-timeout poll; on a negative poll result
return `-1` leaving the caller's `*updated` cell (modelled by `updated0`)
unchanged, otherwise return `0` and set it to `(revents & POLLIN) > 0`. -/
def orb_check (w : World) (fd : Nat) (updated0 : Bool) : Int × Bool :=
  let ret := w.pollRet fd
  if ret < 0 then
    (-1, updated0)
  else
    (0, decide (0 < Nat.land (w.pollRevents fd) POLLIN))

/-- A driver state record used by the concrete instantiations: one advertiser,
minimum interval 1000 µs. -/
def stOneAdv : sensor_state_s :=
  { min_interval := 1000, min_latency := 7, nbuffer := 4
    nsubscribers := 2, nadvertisers := 1, generation := 9 }

/-- A prior content of a caller's `orb_state` cell, used to observe which
fields a state query overwrites. -/
def stPrior : orb_state :=
  { max_frequency := 0, min_batch_interval := 0, queue_size := 0
    nsubscribers := 0, nadvertisers := 99, generation := 0 }

/-- Concrete environment for the instantiations: topic `t` instances 0, 1 and
3 have open-able nodes reporting one advertiser, instance 2 does not; only
instance 0's node pre-exists for `access`; registration and queries succeed;
writes transfer the requested length; polls report readable data. -/
def wEx : World where
  access := fun p => p = "/dev/uorb/t0"
  openRet := fun p =>
    if p = "/dev/uorb/t0" then 3
    else if p = "/dev/uorb/t1" then 4
    else if p = "/dev/uorb/t3" then 5
    else if p = ORB_USENSOR_PATH then 6
    else -1
  regRet := 0
  getStateRet := fun _ => 0
  getStateVal := fun _ => stOneAdv
  writeRet := fun _ len => len
  pollRet := fun _ => 0
  pollRevents := fun _ => 1

/-- The topic used by the concrete instantiations: name `t`, element size 16. -/
def metaEx : orb_metadata := ⟨"t", 16⟩

/-- A topic whose derived path overruns the `ORB_PATH_MAX` budget: the full
formatted path `<root><name><instance>` has 51 characters. -/
def metaLong : orb_metadata := ⟨"aaaaaaaaaaaaaaaaaaaaaaaaaaaaaaaaaaaaaaaa", 16⟩

/-- Environment where every node exists and opens, used with `metaLong`. -/
def wLong : World :=
  { wEx with access := fun _ => true, openRet := fun _ => 3 }

/-- In `wEx`, instance 2 of topic `t` fails the existence probe, so the
`orb_group_count` loop terminates. -/
def gapEx : ∃ n, ¬ orb_exists_ok wEx metaEx n := ⟨2, by decide⟩

/-- A non-null `instance` pointer never forces the `orb_group_count` loop to
run, so its termination hypothesis holds vacuously. -/
def no_null_inst (w : World) (meta : orb_metadata) (v : Nat) :
    (some v : Option Nat) = none → ∃ n, ¬ orb_exists_ok w meta n :=
  fun hn => Option.noConfusion hn

/-- C1: `orb_exists` returns 0 (existence) iff the open of the derived path
and the state query both succeed and the reported `nadvertisers` is positive;
whenever the open succeeded the probe fd is closed before returning; and the
result is only ever 0 or -1, so every failure is reported as non-existence
rather than as a distinct error. -/
theorem orb_exists_reports_advertisers (w : World) (meta : orb_metadata) (inst : Nat) :
    ((orb_exists w meta inst).1 = 0 ↔
      (0 ≤ w.openRet (orb_path meta inst) ∧
       0 ≤ w.getStateRet (w.openRet (orb_path meta inst)).toNat ∧
       0 < (w.getStateVal (w.openRet (orb_path meta inst)).toNat).nadvertisers)) ∧
    (0 ≤ w.openRet (orb_path meta inst) →
      Ev.close_ev (w.openRet (orb_path meta inst)).toNat ∈ (orb_exists w meta inst).2) ∧
    ((orb_exists w meta inst).1 = 0 ∨ (orb_exists w meta inst).1 = -1) := by
  simp only [orb_exists]
  split_ifs with h1 h2 h3 <;> simp_all

/-- C1 witness: in `wEx` the probe of instance 0 succeeds (fd 3, one
advertiser) and the trace contains the close of fd 3. -/
theorem orb_exists_reports_advertisers_witness :
    Ev.close_ev (wEx.openRet (orb_path metaEx 0)).toNat ∈ (orb_exists wEx metaEx 0).2 ∧
    (orb_exists wEx metaEx 0).1 = 0 :=
  ⟨(orb_exists_reports_advertisers wEx metaEx 0).2.1 (by decide),
   ((orb_exists_reports_advertisers wEx metaEx 0).1).mpr (by decide)⟩

/-- C2: `orb_group_count` returns the number of contiguous existing instances
starting at zero: every instance below the result exists, the result itself
does not exist, and in particular if instances 0 and 1 exist but 2 does not
the result is 2 (no constraint is placed on instance 3 or above). -/
theorem orb_group_count_first_gap (w : World) (meta : orb_metadata)
    (h : ∃ n, ¬ orb_exists_ok w meta n) :
    (∀ k, k < orb_group_count w meta h → orb_exists_ok w meta k) ∧
    ¬ orb_exists_ok w meta (orb_group_count w meta h) ∧
    (orb_exists_ok w meta 0 → orb_exists_ok w meta 1 → ¬ orb_exists_ok w meta 2 →
      orb_group_count w meta h = 2) := by
  refine ⟨?_, Nat.find_spec h, ?_⟩
  · intro k hk
    have := Nat.find_min h hk
    simpa using this
  · intro h0 h1 h2
    rw [orb_group_count, Nat.find_eq_iff]
    refine ⟨h2, ?_⟩
    intro k hk
    interval_cases k <;> simpa

/-- C2 witness: in `wEx` instances 0 and 1 exist, 2 does not (3 does exist),
and the count is 2. -/
theorem orb_group_count_first_gap_witness :
    orb_group_count wEx metaEx gapEx = 2 ∧ orb_exists_ok wEx metaEx 3 :=
  ⟨(orb_group_count_first_gap wEx metaEx gapEx).2.2 (by decide) (by decide) (by decide),
   by decide⟩

/-- C3: registration step of `orb_open`.  When the probe finds the path absent
and the control channel opens, the registration request is submitted and the
control fd is closed (the close is in the trace on every exit path);
an `-EEXIST` result is absorbed — the open's outcome is identical to a
successful registration; any other negative registration result aborts the open
with that error; and `first_open` is set exactly when the probe found the path
absent, independent of the registration race. -/
theorem orb_open_registration_protocol (w : World) (meta : orb_metadata) (inst qs : Nat) :
    (w.access (orb_path meta inst) = false → 0 ≤ w.openRet ORB_USENSOR_PATH →
       Ev.register_ev (orb_path meta inst) meta.o_size qs w.regRet ∈ (orb_open w meta inst qs).trace ∧
       Ev.close_ev (w.openRet ORB_USENSOR_PATH).toNat ∈ (orb_open w meta inst qs).trace) ∧
    ((orb_open { w with regRet := -EEXIST } meta inst qs).ret
        = (orb_open { w with regRet := 0 } meta inst qs).ret ∧
     (orb_open { w with regRet := -EEXIST } meta inst qs).first_open
        = (orb_open { w with regRet := 0 } meta inst qs).first_open) ∧
    (w.access (orb_path meta inst) = false → 0 ≤ w.openRet ORB_USENSOR_PATH →
       w.regRet < 0 → w.regRet ≠ -EEXIST → (orb_open w meta inst qs).ret = w.regRet) ∧
    (w.access (orb_path meta inst) = true → (orb_open w meta inst qs).first_open = false) ∧
    (w.access (orb_path meta inst) = false → 0 ≤ w.openRet ORB_USENSOR_PATH →
       (w.regRet < 0 → w.regRet = -EEXIST) → (orb_open w meta inst qs).first_open = true) := by
  simp only [orb_open, orb_open_node]
  split_ifs <;> simp_all <;> omega

/-- C3 witness: in `wEx`, instance 1's node is absent so opening it registers
it (the request and the control-channel close are in the trace) and sets
`first_open`; with a registration result of -13 the open aborts with -13. -/
theorem orb_open_registration_protocol_witness :
    Ev.register_ev (orb_path metaEx 1) metaEx.o_size 0 wEx.regRet ∈ (orb_open wEx metaEx 1 0).trace ∧
    Ev.close_ev (wEx.openRet ORB_USENSOR_PATH).toNat ∈ (orb_open wEx metaEx 1 0).trace ∧
    (orb_open wEx metaEx 1 0).first_open = true ∧
    (orb_open { wEx with regRet := -13 } metaEx 1 0).ret = -13 :=
  ⟨((orb_open_registration_protocol wEx metaEx 1 0).1 (by decide) (by decide)).1,
   ((orb_open_registration_protocol wEx metaEx 1 0).1 (by decide) (by decide)).2,
   (orb_open_registration_protocol wEx metaEx 1 0).2.2.2.2 (by decide) (by decide) (by decide),
   (orb_open_registration_protocol { wEx with regRet := -13 } metaEx 1 0).2.2.1
     (by decide) (by decide) (by decide) (by decide)⟩

/-- C4: `orb_advertise_multi_queue` with a non-null initial payload: when the
open succeeds with fd and the initial publish returns exactly `o_size`, the
call returns fd; when the publish result differs from `o_size`, the call
returns -1 and the fresh fd is closed (its close is in the trace), so no open
session is leaked. -/
theorem orb_advertise_initial_publish_atomic (w : World) (meta : orb_metadata)
    (instPtr : Option Nat) (qs : Nat)
    (h : instPtr = none → ∃ n, ¬ orb_exists_ok w meta n) (fd : Int)
    (hfd : (orb_open w meta (chosen_instance w meta instPtr h) qs).ret = fd)
    (hok : 0 ≤ fd) :
    (w.writeRet fd.toNat meta.o_size = (meta.o_size : Int) →
      (orb_advertise_multi_queue w meta true instPtr qs h).ret = fd) ∧
    (w.writeRet fd.toNat meta.o_size ≠ (meta.o_size : Int) →
      (orb_advertise_multi_queue w meta true instPtr qs h).ret = -1 ∧
      Ev.close_ev fd.toNat ∈ (orb_advertise_multi_queue w meta true instPtr qs h).trace) := by
  simp only [orb_advertise_multi_queue, orb_publish_multi, hfd]
  split_ifs <;> simp_all
  omega

/-- C4 witness: in `wEx` the advertise with initial publish returns the fd 3;
in the same environment with short writes it returns -1 and closes fd 3. -/
theorem orb_advertise_initial_publish_atomic_witness :
    (orb_advertise_multi_queue wEx metaEx true (some 0) 1 (no_null_inst wEx metaEx 0)).ret = 3 ∧
    (orb_advertise_multi_queue { wEx with writeRet := fun _ _ => 0 } metaEx true (some 0) 1
      (no_null_inst { wEx with writeRet := fun _ _ => 0 } metaEx 0)).ret = -1 ∧
    Ev.close_ev 3 ∈ (orb_advertise_multi_queue { wEx with writeRet := fun _ _ => 0 } metaEx true
      (some 0) 1 (no_null_inst { wEx with writeRet := fun _ _ => 0 } metaEx 0)).trace :=
  ⟨(orb_advertise_initial_publish_atomic wEx metaEx (some 0) 1
      (no_null_inst wEx metaEx 0) 3 (by decide) (by decide)).1 (by decide),
   ((orb_advertise_initial_publish_atomic { wEx with writeRet := fun _ _ => 0 } metaEx (some 0) 1
      (no_null_inst { wEx with writeRet := fun _ _ => 0 } metaEx 0) 3 (by decide) (by decide)).2
      (by decide)).1,
   ((orb_advertise_initial_publish_atomic { wEx with writeRet := fun _ _ => 0 } metaEx (some 0) 1
      (no_null_inst { wEx with writeRet := fun _ _ => 0 } metaEx 0) 3 (by decide) (by decide)).2
      (by decide)).2⟩

/-- C5: on a successful query, the reported `max_frequency` is 0 when the
driver's `min_interval` is 0 and the integer quotient `1000000 / min_interval`
otherwise; in particular a `min_interval` of 1000 yields 1000 Hz. -/
theorem orb_get_state_max_frequency (w : World) (fd : Nat) (s0 : orb_state)
    (hq : 0 ≤ w.getStateRet fd) :
    ((orb_get_state w fd (some s0)).2.1.map orb_state.max_frequency)
      = some (if (w.getStateVal fd).min_interval = 0 then 0
              else 1000000 / (w.getStateVal fd).min_interval) ∧
    ((w.getStateVal fd).min_interval = 1000 →
      ((orb_get_state w fd (some s0)).2.1.map orb_state.max_frequency) = some 1000) := by
  have h1 : ¬ w.getStateRet fd < 0 := by omega
  simp only [orb_get_state, if_neg h1]
  constructor
  · by_cases hm : (w.getStateVal fd).min_interval = 0 <;> simp [hm]
  · intro hm
    simp [hm]

/-- C5 witness: in `wEx` the driver reports `min_interval = 1000` and the
query on fd 3 reports a max frequency of 1000 Hz. -/
theorem orb_get_state_max_frequency_witness :
    ((orb_get_state wEx 3 (some stPrior)).2.1.map orb_state.max_frequency) = some 1000 :=
  (orb_get_state_max_frequency wEx 3 stPrior (by decide)).2 (by decide)

/-- C6 counterexample: for `metaLong` the full formatted path exceeds the
`ORB_PATH_MAX` budget, yet `orb_open` succeeds (returns fd 3) instead of
failing with a PathTooLong error — no such error path exists in the code,
which silently truncates via `snprintf`. -/
theorem orb_open_long_path_succeeds_cex :
    ORB_PATH_MAX < (ORB_SENSOR_PATH ++ metaLong.o_name ++ toString 0).length ∧
    0 ≤ (orb_open wLong metaLong 0 0).ret := by decide

/-- C6 amended: when the formatted path `<root><name><instance>` would exceed
`ORB_PATH_MAX`, `orb_open` does not fail on path length: `snprintf` silently
truncates the path to `ORB_PATH_MAX - 1` characters and the open proceeds with
the truncated path (succeeding whenever the OS accepts it). -/
theorem orb_open_truncates_long_path (w : World) (meta : orb_metadata) (inst qs : Nat)
    (hlong : ORB_PATH_MAX < (ORB_SENSOR_PATH ++ meta.o_name ++ toString inst).length)
    (hacc : w.access (orb_path meta inst) = true)
    (hfd : 0 ≤ w.openRet (orb_path meta inst)) :
    (orb_open w meta inst qs).ret = w.openRet (orb_path meta inst) ∧
    0 ≤ (orb_open w meta inst qs).ret ∧
    (orb_path meta inst).length = ORB_PATH_MAX - 1 := by
  have hlen : (orb_path meta inst).length = ORB_PATH_MAX - 1 := by
    simp only [orb_path, snprintf_trunc, String.length]
    rw [List.length_take]
    have : (ORB_SENSOR_PATH ++ meta.o_name ++ toString inst).length
        = (ORB_SENSOR_PATH ++ meta.o_name ++ toString inst).data.length := rfl
    omega
  refine ⟨?_, ?_, hlen⟩ <;>
    · simp only [orb_open, orb_open_node, hacc, if_true]
      split_ifs <;> simp_all

/-- C6 amended witness: `metaLong`'s 51-character formatted path is truncated
to 47 characters and the open succeeds in `wLong`. -/
theorem orb_open_truncates_long_path_witness :
    (orb_open wLong metaLong 0 0).ret = wLong.openRet (orb_path metaLong 0) ∧
    0 ≤ (orb_open wLong metaLong 0 0).ret ∧
    (orb_path metaLong 0).length = ORB_PATH_MAX - 1 :=
  orb_open_truncates_long_path wLong metaLong 0 0 (by decide) (by decide) (by decide)

/-- C7 counterexample: a successful query in `wEx` (the driver reports
`nadvertisers = 1`) leaves the output's `nadvertisers` field at its prior
value 99 — the raw record's advertiser count is not carried through, refuting
the claim that the snapshot includes it. -/
theorem orb_get_state_nadvertisers_not_copied_cex :
    0 ≤ (orb_get_state wEx 3 (some stPrior)).1 ∧
    (wEx.getStateVal 3).nadvertisers = 1 ∧
    ((orb_get_state wEx 3 (some stPrior)).2.1.map orb_state.nadvertisers) = some 99 := by
  decide

/-- C7 amended: on a successful query `orb_get_state` carries the driver's
`min_latency`, `nbuffer`, `nsubscribers` and `generation` through unchanged
(as `min_batch_interval`, `queue_size`, `nsubscribers`, `generation`), but it
never assigns `nadvertisers`: that output field keeps its prior value. -/
theorem orb_get_state_passthrough (w : World) (fd : Nat) (s0 : orb_state)
    (hq : 0 ≤ w.getStateRet fd) :
    ((orb_get_state w fd (some s0)).2.1.map orb_state.min_batch_interval)
       = some (w.getStateVal fd).min_latency ∧
    ((orb_get_state w fd (some s0)).2.1.map orb_state.queue_size)
       = some (w.getStateVal fd).nbuffer ∧
    ((orb_get_state w fd (some s0)).2.1.map orb_state.nsubscribers)
       = some (w.getStateVal fd).nsubscribers ∧
    ((orb_get_state w fd (some s0)).2.1.map orb_state.generation)
       = some (w.getStateVal fd).generation ∧
    ((orb_get_state w fd (some s0)).2.1.map orb_state.nadvertisers)
       = some s0.nadvertisers := by
  have h1 : ¬ w.getStateRet fd < 0 := by omega
  simp only [orb_get_state, if_neg h1]
  exact ⟨rfl, rfl, rfl, rfl, rfl⟩

/-- C7 amended witness: in `wEx` the query on fd 3 copies `min_latency = 7`,
`nbuffer = 4`, `nsubscribers = 2`, `generation = 9` and leaves
`nadvertisers = 99` as it was. -/
theorem orb_get_state_passthrough_witness :
    ((orb_get_state wEx 3 (some stPrior)).2.1.map orb_state.min_batch_interval) = some 7 ∧
    ((orb_get_state wEx 3 (some stPrior)).2.1.map orb_state.nadvertisers) = some 99 :=
  ⟨(orb_get_state_passthrough wEx 3 stPrior (by decide)).1,
   (orb_get_state_passthrough wEx 3 stPrior (by decide)).2.2.2.2⟩

/-- C8: `orb_get_state` with a null output location fails immediately with
`-EINVAL` and an empty trace (no query issued); with a present output location
the call fails exactly when the driver's query fails, returning the driver's
error code and leaving the output cell unmodified. -/
theorem orb_get_state_null_and_query_failure (w : World) (fd : Nat)
    (state0 : Option orb_state) :
    (orb_get_state w fd none = (-EINVAL, none, [])) ∧
    (∀ s0, state0 = some s0 →
      ((orb_get_state w fd state0).1 < 0 ↔ w.getStateRet fd < 0) ∧
      (w.getStateRet fd < 0 →
        (orb_get_state w fd state0).1 = w.getStateRet fd ∧
        (orb_get_state w fd state0).2.1 = some s0)) := by
  refine ⟨rfl, ?_⟩
  rintro s0 rfl
  simp only [orb_get_state]
  split_ifs <;> simp_all

/-- C8 witness: the null-destination call returns `-EINVAL` with no query, and
with a driver that rejects the query with -5 the call returns -5 and leaves
the output cell at its prior value. -/
theorem orb_get_state_null_and_query_failure_witness :
    orb_get_state wEx 3 none = (-EINVAL, none, []) ∧
    (orb_get_state { wEx with getStateRet := fun _ => -5 } 3 (some stPrior)).1 = -5 ∧
    (orb_get_state { wEx with getStateRet := fun _ => -5 } 3 (some stPrior)).2.1 = some stPrior :=
  ⟨(orb_get_state_null_and_query_failure wEx 3 none).1,
   ((orb_get_state_null_and_query_failure { wEx with getStateRet := fun _ => -5 } 3
      (some stPrior)).2 stPrior rfl).2 (by decide) |>.1,
   ((orb_get_state_null_and_query_failure { wEx with getStateRet := fun _ => -5 } 3
      (some stPrior)).2 stPrior rfl).2 (by decide) |>.2⟩

/-- C9: `orb_advertise_multi_queue` never writes through the instance pointer
(the final cell value equals the initial one on every path); a non-null
pointer's value is the instance opened, and a null pointer selects the current
`orb_group_count` of the topic. -/
theorem orb_advertise_instance_frame (w : World) (meta : orb_metadata)
    (hasData : Bool) (instPtr : Option Nat) (qs : Nat)
    (h : instPtr = none → ∃ n, ¬ orb_exists_ok w meta n) :
    (orb_advertise_multi_queue w meta hasData instPtr qs h).instFinal = instPtr ∧
    (∀ v, instPtr = some v →
      (orb_advertise_multi_queue w meta hasData instPtr qs h).instUsed = v) ∧
    (∀ hn : instPtr = none,
      (orb_advertise_multi_queue w meta hasData instPtr qs h).instUsed
        = orb_group_count w meta (h hn)) := by
  refine ⟨?_, ?_, ?_⟩
  · simp only [orb_advertise_multi_queue]
    split_ifs <;> rfl
  · rintro v rfl
    simp only [orb_advertise_multi_queue, chosen_instance]
    split_ifs <;> rfl
  · rintro rfl
    simp only [orb_advertise_multi_queue, chosen_instance]
    split_ifs <;> rfl

/-- C9 witness: in `wEx` a pointer holding 7 is left holding 7 and instance 7
is opened; a null pointer stays null and the auto-selected instance is the
group count (which is 2 in `wEx`). -/
theorem orb_advertise_instance_frame_witness :
    (orb_advertise_multi_queue wEx metaEx false (some 7) 0 (no_null_inst wEx metaEx 7)).instFinal = some 7 ∧
    (orb_advertise_multi_queue wEx metaEx false (some 7) 0 (no_null_inst wEx metaEx 7)).instUsed = 7 ∧
    (orb_advertise_multi_queue wEx metaEx false none 0 (fun _ => gapEx)).instFinal = none ∧
    (orb_advertise_multi_queue wEx metaEx false none 0 (fun _ => gapEx)).instUsed
      = orb_group_count wEx metaEx gapEx :=
  ⟨(orb_advertise_instance_frame wEx metaEx false (some 7) 0 (no_null_inst wEx metaEx 7)).1,
   (orb_advertise_instance_frame wEx metaEx false (some 7) 0 (no_null_inst wEx metaEx 7)).2.1 7 rfl,
   (orb_advertise_instance_frame wEx metaEx false none 0 (fun _ => gapEx)).1,
   (orb_advertise_instance_frame wEx metaEx false none 0 (fun _ => gapEx)).2.2 rfl⟩

/-- C10: `orb_check` returns -1 and leaves the caller's `updated` cell
unmodified when the zero-timeout poll fails; on a non-negative poll result it
returns 0 and sets the cell to true exactly when `revents` has `POLLIN`. -/
theorem orb_check_poll_semantics (w : World) (fd : Nat) (updated0 : Bool) :
    (w.pollRet fd < 0 → orb_check w fd updated0 = (-1, updated0)) ∧
    (0 ≤ w.pollRet fd →
      (orb_check w fd updated0).1 = 0 ∧
      ((orb_check w fd updated0).2 = true ↔ Nat.land (w.pollRevents fd) POLLIN ≠ 0)) := by
  simp only [orb_check]
  split_ifs <;> simp_all
  omega

/-- C10 witness: with a failing poll the stale cell value (true) is returned
untouched alongside -1; in `wEx` (readable data) the call returns 0 and sets
the cell to true. -/
theorem orb_check_poll_semantics_witness :
    orb_check { wEx with pollRet := fun _ => -1 } 3 true = (-1, true) ∧
    (orb_check wEx 3 false).1 = 0 ∧
    (orb_check wEx 3 false).2 = true :=
  ⟨(orb_check_poll_semantics { wEx with pollRet := fun _ => -1 } 3 true).1 (by decide),
   ((orb_check_poll_semantics wEx 3 false).2 (by decide)).1,
   (((orb_check_poll_semantics wEx 3 false).2 (by decide)).2).mpr (by decide)⟩

end UorbSpec
